import Mathlib

namespace Passages

/-! Shallow embedding of the signup mediators of brandur/passages-signup:
`command/signup_starter.go`, `command/signup_finisher.go`, the `signup`
table of `schema.sql`, and `db.WithTransaction`. Time is modelled as an
integer count of nanoseconds, the database as the list of rows of the
`signup` table plus the `BIGSERIAL` sequence, and the mail client as the
recorded lists of messages sent and members added, mirroring
`mailclient.FakeClient`. -/

/-- A row of the `signup` table (schema.sql). -/
structure SignupRow where
  id : Int
  createdAt : Int
  completedAt : Option Int
  email : String
  lastSentAt : Int
  numAttempts : Int
  token : String
  deriving Repr, DecidableEq

/-- The state of the `signup` table, plus the sequence backing `id BIGSERIAL`. -/
structure DB where
  rows : List SignupRow
  nextId : Int
  deriving Repr, DecidableEq

/-- Parameters of `mailclient.API.SendMessage` as the mediators fill them in.
The two rendered bodies are a function of the token, so the token stands in
for them. -/
structure SendMessageParams where
  recipient : String
  token : String
  listAddress : String
  replyTo : String
  deriving Repr, DecidableEq

/-- Recorded effects of the mail client, as in `mailclient.FakeClient`:
`MessagesSent` and `MembersAdded`. A member addition records the list
address and the email. -/
structure MailState where
  messagesSent : List SendMessageParams
  membersAdded : List (String × String)
  deriving Repr, DecidableEq

/-- The distinct error exits of the mediators. Each constructor stands for
the wrapped error the corresponding `return nil, xerrors.Errorf(...)` or
`return nil, ErrInvalidEmail` path produces. -/
inductive Err where
  | validationFailed
  | invalidEmail
  | dbQuery
  | dbExec
  | render
  | sendMessage
  | addMember
  deriving Repr, DecidableEq

/-- The ambient collaborators for one mediator invocation: the current time
(`time.Now()` and SQL `NOW()`), the token `uuid.New().String()` would
produce, and whether each fallible external call fails on this invocation. -/
structure Env where
  now : Int
  freshToken : String
  queryFails : Bool
  execFails : Bool
  renderFails : Bool
  sendFails : Bool
  addMemberFails : Bool
  deriving Repr, DecidableEq

/-- `maxNumSignupAttempts` from signup_starter.go. -/
def maxNumSignupAttempts : Int := 3

/-- `noResendHours` from signup_starter.go. -/
def noResendHours : Int := 24

/-- `time.Hour` in nanoseconds. -/
def timeHour : Int := 3600000000000

/-- The character class `[a-zA-Z0-9]` of `emailRegexp` (ASCII letters and
digits, as in the Go regexp). -/
def isAlnumChar (c : Char) : Bool := c.isAlpha || c.isDigit

/-- The character class of the local part of `emailRegexp`: letters, digits,
and the specials listed in the regexp, given here by code point. -/
def isLocalChar (c : Char) : Bool :=
  isAlnumChar c ||
    [33, 35, 36, 37, 38, 39, 42, 43, 45, 46, 47, 61, 63,
      94, 95, 96, 123, 124, 125, 126].contains c.toNat

/-- The character class `[a-zA-Z0-9-]` of a domain label's interior. -/
def isLabelChar (c : Char) : Bool := isAlnumChar c || c.toNat == 45

/-- One domain label of `emailRegexp`:
`[a-zA-Z0-9](?:[a-zA-Z0-9-]{0,61}[a-zA-Z0-9])?` — a leading alphanumeric,
then optionally up to 61 interior characters and a final alphanumeric. -/
def labelMatch : List Char → Bool
  | [] => false
  | c :: rest =>
    isAlnumChar c &&
      match rest.getLast? with
      | none => true
      | some lastc =>
        decide (rest.length ≤ 62) && rest.all isLabelChar && isAlnumChar lastc

/-- Split a character list at every occurrence of the separator. -/
def splitOnChar (sep : Char) : List Char → List (List Char)
  | [] => [[]]
  | c :: rest =>
    match splitOnChar sep rest with
    | [] => [[c]]
    | g :: gs => if c == sep then [] :: g :: gs else (c :: g) :: gs

/-- `emailRegexp.MatchString`: the regexp is anchored at both ends, the local
part is one or more local characters, `@` occurs exactly once (neither
character class contains it), and the domain is one or more dot-separated
labels (neither character class contains the dot). -/
def emailRegexpMatch (s : String) : Bool :=
  match splitOnChar (Char.ofNat 64) s.toList with
  | [l, d] =>
    !l.isEmpty && l.all isLocalChar &&
      ((splitOnChar (Char.ofNat 46) d).all labelMatch)
  | _ => false

/-- The rate-limit test of signup_starter.go,
`lastSentAt.After(time.Now().Add(-noResendHours * time.Hour))`:
`time.Time.After` is a strict comparison. -/
def rateLimitHit (lastSentAt now : Int) : Bool :=
  decide (now - noResendHours * timeHour < lastSentAt)

/-- `SELECT id, completed_at, last_sent_at, num_attempts, token FROM signup
WHERE email = $1` — `email` is unique, modelled as the first match. -/
def DB.findByEmail (db : DB) (e : String) : Option SignupRow :=
  db.rows.find? (fun r => r.email == e)

/-- `SELECT id, email FROM signup WHERE token = $1` — `token` is unique,
modelled as the first match. -/
def DB.findByToken (db : DB) (t : String) : Option SignupRow :=
  db.rows.find? (fun r => r.token == t)

/-- `INSERT INTO signup (email, token) VALUES ($1, $2)`: the remaining
columns take their schema defaults — `id` from the sequence,
`created_at` and `last_sent_at` `now()`, `num_attempts` 1, `completed_at`
null. -/
def DB.insertSignup (db : DB) (e t : String) (now : Int) : DB :=
  { rows := db.rows ++
      [{ id := db.nextId, createdAt := now, completedAt := none, email := e,
         lastSentAt := now, numAttempts := 1, token := t }],
    nextId := db.nextId + 1 }

/-- `UPDATE signup SET last_sent_at = NOW(), num_attempts = $1 WHERE id = $2`. -/
def DB.updateSent (db : DB) (i now n : Int) : DB :=
  { db with rows := db.rows.map (fun r =>
      if r.id == i then { r with lastSentAt := now, numAttempts := n } else r) }

/-- `UPDATE signup SET completed_at = NOW() WHERE id = $1`. -/
def DB.updateCompleted (db : DB) (i now : Int) : DB :=
  { db with rows := db.rows.map (fun r =>
      if r.id == i then { r with completedAt := some now } else r) }

/-- `command.SignupStarter`: the email under signup plus the string-typed
collaborator configuration. `MailAPI` and `Renderer` are capability values
modelled by `Env` and `MailState` and assumed non-nil for their
`validate:"required"` tags. -/
structure SignupStarter where
  email : String
  listAddress : String
  replyToAddress : String
  deriving Repr, DecidableEq

/-- `validate.Struct` on `SignupStarter`: the `required` rule fails on a
string's zero value, the empty string. -/
def SignupStarter.valid (c : SignupStarter) : Bool :=
  c.email != "" && c.listAddress != "" && c.replyToAddress != ""

/-- `command.SignupStarterResult`. -/
structure SignupStarterResult where
  confirmationRateLimited : Bool
  confirmationResent : Bool
  maxNumAttempts : Bool
  newSignup : Bool
  deriving Repr, DecidableEq

/-- `&SignupStarterResult{ConfirmationRateLimited: true}`. -/
def resultRateLimited : SignupStarterResult := ⟨true, false, false, false⟩

/-- `&SignupStarterResult{ConfirmationResent: true}`. -/
def resultResent : SignupStarterResult := ⟨false, true, false, false⟩

/-- `&SignupStarterResult{MaxNumAttempts: true}`. -/
def resultMaxNumAttempts : SignupStarterResult := ⟨false, false, true, false⟩

/-- `&SignupStarterResult{NewSignup: true}`. -/
def resultNewSignup : SignupStarterResult := ⟨false, false, false, true⟩

/-- `SignupStarter.sendConfirmationMessage`: render the plain and HTML bodies
from the token, inline CSS into the HTML, and call `MailAPI.SendMessage`;
a render or inline failure, or a send failure, propagates as an error. -/
def SignupStarter.sendConfirmationMessage (c : SignupStarter) (env : Env)
    (token : String) (mail : MailState) : Except Err MailState :=
  if env.renderFails then .error .render
  else if env.sendFails then .error .sendMessage
  else .ok { mail with messagesSent := mail.messagesSent ++
    [{ recipient := c.email, token := token,
       listAddress := c.listAddress, replyTo := c.replyToAddress }] }

/-- `SignupStarter.Run`. Returns the result-or-error together with the
in-transaction database state and the mail client state. -/
def SignupStarter.run (c : SignupStarter) (env : Env) (db : DB)
    (mail : MailState) : Except Err SignupStarterResult × DB × MailState :=
  if !c.valid then (.error .validationFailed, db, mail)
  else if !emailRegexpMatch c.email then (.error .invalidEmail, db, mail)
  else if env.queryFails then (.error .dbQuery, db, mail)
  else
    match db.findByEmail c.email with
    | none =>
      if env.execFails then (.error .dbExec, db, mail)
      else
        match c.sendConfirmationMessage env env.freshToken mail with
        | .error e =>
          (.error e, db.insertSignup c.email env.freshToken env.now, mail)
        | .ok mailSent =>
          (.ok resultNewSignup,
            db.insertSignup c.email env.freshToken env.now, mailSent)
    | some row =>
      if row.completedAt = none ∧ maxNumSignupAttempts ≤ row.numAttempts then
        (.ok resultMaxNumAttempts, db, mail)
      else if rateLimitHit row.lastSentAt env.now then
        (.ok resultRateLimited, db, mail)
      else
        if env.execFails then (.error .dbExec, db, mail)
        else
          match c.sendConfirmationMessage env row.token mail with
          | .error e =>
            (.error e, db.updateSent row.id env.now
              (if row.completedAt = none then row.numAttempts + 1
               else row.numAttempts), mail)
          | .ok mailSent =>
            (.ok resultResent, db.updateSent row.id env.now
              (if row.completedAt = none then row.numAttempts + 1
               else row.numAttempts), mailSent)

/-- `command.SignupFinisher`: the token received through the secret URL plus
the list address; `MailAPI` is assumed non-nil for `validate:"required"`. -/
structure SignupFinisher where
  listAddress : String
  token : String
  deriving Repr, DecidableEq

/-- `validate.Struct` on `SignupFinisher`. -/
def SignupFinisher.valid (c : SignupFinisher) : Bool :=
  c.listAddress != "" && c.token != ""

/-- `command.SignupFinisherResult`. -/
structure SignupFinisherResult where
  email : String
  signupFinished : Bool
  tokenNotFound : Bool
  deriving Repr, DecidableEq

/-- `SignupFinisher.Run`. Returns the result-or-error together with the
in-transaction database state and the mail client state. -/
def SignupFinisher.run (c : SignupFinisher) (env : Env) (db : DB)
    (mail : MailState) : Except Err SignupFinisherResult × DB × MailState :=
  if !c.valid then (.error .validationFailed, db, mail)
  else if env.queryFails then (.error .dbQuery, db, mail)
  else
    match db.findByToken c.token with
    | none => (.ok ⟨"", false, true⟩, db, mail)
    | some row =>
      if env.execFails then (.error .dbExec, db, mail)
      else
        if env.addMemberFails then
          (.error .addMember, db.updateCompleted row.id env.now, mail)
        else
          (.ok ⟨row.email, true, false⟩, db.updateCompleted row.id env.now,
            { mail with membersAdded :=
                mail.membersAdded ++ [(c.listAddress, row.email)] })

/-- Whether `db.WithTransaction` committed or rolled back. -/
inductive TxFate where
  | committed
  | rolledBack
  deriving Repr, DecidableEq

/-- `db.WithTransaction`: begin, run the body on the current state, commit
when the body returns nil, otherwise roll back (the deferred rollback after
a successful commit is a no-op, `pgx.ErrTxClosed`). The body's second
component is the in-transaction state; rollback discards it. -/
def withTransaction {σ E α : Type} (s : σ) (f : σ → Except E α × σ) :
    Except E α × σ × TxFate :=
  match f s with
  | (.ok a, s1) => (.ok a, s1, .committed)
  | (.error e, _) => (.error e, s, .rolledBack)

/-- `SignupStarter.Run` as a transaction body over the database state: the
mail client's effects are external to the transaction, but a message is only
recorded on the body's success exit, so the error case keeps the prior mail
state. -/
def SignupStarter.runInTx (c : SignupStarter) (env : Env) (mail : MailState)
    (db : DB) : Except Err (SignupStarterResult × MailState) × DB :=
  match c.run env db mail with
  | (.ok r, db1, mail1) => (.ok (r, mail1), db1)
  | (.error e, db1, _) => (.error e, db1)

/-- `SignupFinisher.Run` as a transaction body over the database state. -/
def SignupFinisher.runInTx (c : SignupFinisher) (env : Env) (mail : MailState)
    (db : DB) : Except Err (SignupFinisherResult × MailState) × DB :=
  match c.run env db mail with
  | (.ok r, db1, mail1) => (.ok (r, mail1), db1)
  | (.error e, db1, _) => (.error e, db1)

/-- One `SignupStarter` invocation as the web handlers run it: inside
`WithTransaction`. -/
def SignupStarter.transact (c : SignupStarter) (env : Env) (mail : MailState)
    (db : DB) : Except Err (SignupStarterResult × MailState) × DB × TxFate :=
  withTransaction db (c.runInTx env mail)

/-- One `SignupFinisher` invocation as the web handlers run it: inside
`WithTransaction`. -/
def SignupFinisher.transact (c : SignupFinisher) (env : Env) (mail : MailState)
    (db : DB) : Except Err (SignupFinisherResult × MailState) × DB × TxFate :=
  withTransaction db (c.runInTx env mail)

/-- A mediator invocation, for reasoning about sequences of requests. -/
inductive Op where
  | start (c : SignupStarter) (env : Env)
  | finish (c : SignupFinisher) (env : Env)

/-- The database state committed by one invocation (each run starts from an
empty fake mail client, which the database state does not depend on). -/
def applyOp (db : DB) : Op → DB
  | .start c env => (c.transact env ⟨[], []⟩ db).2.1
  | .finish c env => (c.transact env ⟨[], []⟩ db).2.1

/-- The database state after a sequence of mediator invocations. -/
def applyOps (db : DB) (ops : List Op) : DB :=
  ops.foldl applyOp db

/-! Concrete fixtures used to instantiate the theorems below. -/

/-- A pending signup row, as the tests insert one. -/
def rowFix : SignupRow :=
  ⟨1, 0, none, "foo@example.com", 0, 1, "tok-1"⟩

/-- A one-row table. -/
def dbFix : DB := ⟨[rowFix], 2⟩

/-- An empty table. -/
def dbEmpty : DB := ⟨[], 1⟩

/-- An environment in which every collaborator succeeds. -/
def envOk : Env := ⟨360000000000000, "fresh-tok", false, false, false, false, false⟩

/-- An empty fake mail client. -/
def mail0 : MailState := ⟨[], []⟩

/-- A well-formed finisher command for the fixture row's token. -/
def finisherFix : SignupFinisher := ⟨"list@example.com", "tok-1"⟩

/-- A well-formed starter command for a fresh email. -/
def starterFix : SignupStarter :=
  ⟨"new@example.com", "list@example.com", "reply@example.com"⟩

/-! Helper lemmas about lookups after updates. -/

/-- `find?` commutes with mapping a function that does not change the
predicate's verdict. -/
theorem find?_map_of_pred_eq {α : Type} (f : α → α) (p : α → Bool)
    (hp : ∀ r, p (f r) = p r) : ∀ l : List α,
    (l.map f).find? p = (l.find? p).map f
  | [] => rfl
  | a :: l => by
    simp only [List.map_cons, List.find?]
    rw [hp a]
    cases h : p a with
    | true => rfl
    | false => exact find?_map_of_pred_eq f p hp l

/-- Looking a token up after `UPDATE ... SET completed_at` finds the same row,
updated. -/
theorem findByToken_updateCompleted (db : DB) (i now : Int) (t : String) :
    (db.updateCompleted i now).findByToken t =
      (db.findByToken t).map (fun r =>
        if r.id == i then { r with completedAt := some now } else r) := by
  unfold DB.findByToken DB.updateCompleted
  exact find?_map_of_pred_eq _ _ (fun r => by split <;> rfl) _

/-- Looking an email up after `UPDATE ... SET last_sent_at, num_attempts`
finds the same row, updated. -/
theorem findByEmail_updateSent (db : DB) (i now n : Int) (e : String) :
    (db.updateSent i now n).findByEmail e =
      (db.findByEmail e).map (fun r =>
        if r.id == i then { r with lastSentAt := now, numAttempts := n }
        else r) := by
  unfold DB.findByEmail DB.updateSent
  exact find?_map_of_pred_eq _ _ (fun r => by split <;> rfl) _

/-- C1: re-running `SignupFinisher.Run` twice with the same valid token is
idempotent — both calls succeed with `SignupFinished` and the row's email,
`AddMember` is recorded once per call (twice in total), and `completed_at`
is re-set to the call's current time on each run. -/
theorem c1_finisher_idempotent (c : SignupFinisher) (env1 env2 : Env)
    (db : DB) (mail : MailState) (row : SignupRow)
    (hv : c.valid = true)
    (h1q : env1.queryFails = false) (h1e : env1.execFails = false)
    (h1a : env1.addMemberFails = false)
    (h2q : env2.queryFails = false) (h2e : env2.execFails = false)
    (h2a : env2.addMemberFails = false)
    (hfind : db.findByToken c.token = some row) :
    ∃ db1 mail1 db2 mail2,
      c.run env1 db mail = (.ok ⟨row.email, true, false⟩, db1, mail1) ∧
      c.run env2 db1 mail1 = (.ok ⟨row.email, true, false⟩, db2, mail2) ∧
      mail1.membersAdded = mail.membersAdded ++ [(c.listAddress, row.email)] ∧
      mail2.membersAdded = mail1.membersAdded ++ [(c.listAddress, row.email)] ∧
      db1.findByToken c.token = some { row with completedAt := some env1.now } ∧
      db2.findByToken c.token = some { row with completedAt := some env2.now } := by
  have h1 : c.run env1 db mail =
      (.ok ⟨row.email, true, false⟩, db.updateCompleted row.id env1.now,
        { mail with membersAdded :=
            mail.membersAdded ++ [(c.listAddress, row.email)] }) := by
    simp [SignupFinisher.run, hv, h1q, h1e, h1a, hfind]
  have hfind1 : (db.updateCompleted row.id env1.now).findByToken c.token =
      some { row with completedAt := some env1.now } := by
    rw [findByToken_updateCompleted, hfind]
    simp
  have h2 : c.run env2 (db.updateCompleted row.id env1.now)
      { mail with membersAdded :=
          mail.membersAdded ++ [(c.listAddress, row.email)] } =
      (.ok ⟨row.email, true, false⟩,
        (db.updateCompleted row.id env1.now).updateCompleted row.id env2.now,
        { mail with membersAdded := mail.membersAdded ++
            [(c.listAddress, row.email)] ++ [(c.listAddress, row.email)] }) := by
    simp [SignupFinisher.run, hv, h2q, h2e, h2a, hfind1]
  have hfind2 : ((db.updateCompleted row.id env1.now).updateCompleted
      row.id env2.now).findByToken c.token =
      some { row with completedAt := some env2.now } := by
    rw [findByToken_updateCompleted, hfind1]
    simp
  exact ⟨_, _, _, _, h1, h2, rfl, by simp, hfind1, hfind2⟩

/-- C1 witness at a concrete row, table and environment. -/
theorem c1_witness :
    ∃ db1 mail1 db2 mail2,
      finisherFix.run envOk dbFix mail0 =
        (.ok ⟨rowFix.email, true, false⟩, db1, mail1) ∧
      finisherFix.run envOk db1 mail1 =
        (.ok ⟨rowFix.email, true, false⟩, db2, mail2) ∧
      mail1.membersAdded = mail0.membersAdded ++
        [(finisherFix.listAddress, rowFix.email)] ∧
      mail2.membersAdded = mail1.membersAdded ++
        [(finisherFix.listAddress, rowFix.email)] ∧
      db1.findByToken finisherFix.token =
        some { rowFix with completedAt := some envOk.now } ∧
      db2.findByToken finisherFix.token =
        some { rowFix with completedAt := some envOk.now } :=
  c1_finisher_idempotent finisherFix envOk envOk dbFix mail0 rowFix
    (by decide) rfl rfl rfl rfl rfl rfl (by decide)

/-- A starter command for the fixture row's email. -/
def starterFoo : SignupStarter :=
  ⟨"foo@example.com", "list@example.com", "reply@example.com"⟩

/-- A not-completed row already at the attempt ceiling, with a `last_sent_at`
inside the cooldown window. -/
def rowMax : SignupRow :=
  ⟨1, 0, none, "foo@example.com", 360000000000000, 3, "tok-1"⟩

/-- A one-row table holding `rowMax`. -/
def dbMax : DB := ⟨[rowMax], 2⟩

/-- A pending row whose confirmation was sent one hour before `envOk.now`. -/
def rowRecent : SignupRow :=
  ⟨1, 0, none, "foo@example.com", 356400000000000, 1, "tok-1"⟩

/-- A one-row table holding `rowRecent`. -/
def dbRecent : DB := ⟨[rowRecent], 2⟩

/-- C2: for an existing not-completed row at or above the attempt ceiling,
`SignupStarter.Run` reports `MaxNumAttempts` alone, sends nothing and leaves
the table unchanged — with no assumption on `last_sent_at` or on the later
collaborators, so the cap precedes the cooldown check; for a completed row
the cap never fires. -/
theorem c2_max_attempts (c : SignupStarter) (env : Env) (db : DB)
    (mail : MailState) (row : SignupRow)
    (hv : c.valid = true) (hre : emailRegexpMatch c.email = true)
    (hq : env.queryFails = false)
    (hfind : db.findByEmail c.email = some row)
    (hn : maxNumSignupAttempts ≤ row.numAttempts) :
    (row.completedAt = none →
      c.run env db mail = (.ok resultMaxNumAttempts, db, mail)) ∧
    (∀ t res, row.completedAt = some t →
      (c.run env db mail).1 = .ok res → res.maxNumAttempts = false) := by
  constructor
  · intro hc
    simp [SignupStarter.run, hv, hre, hq, hfind, hc, hn]
  · intro t res hc hrun
    simp only [SignupStarter.run, hv, hre, hq, hfind, hc] at hrun
    simp only [Bool.not_true, Bool.false_eq_true, if_false, reduceCtorEq,
      false_and, if_true] at hrun
    split at hrun
    · simp at hrun
      subst hrun
      rfl
    · split at hrun
      · simp at hrun
      · split at hrun
        · simp at hrun
        · simp at hrun
          subst hrun
          rfl

/-- C2 witness: the fixture row is at the ceiling and was sent to within the
cooldown window, yet the outcome is `MaxNumAttempts`. -/
theorem c2_witness :
    (rowMax.completedAt = none →
      starterFoo.run envOk dbMax mail0 =
        (.ok resultMaxNumAttempts, dbMax, mail0)) ∧
    (∀ t res, rowMax.completedAt = some t →
      (starterFoo.run envOk dbMax mail0).1 = .ok res →
        res.maxNumAttempts = false) :=
  c2_max_attempts starterFoo envOk dbMax mail0 rowMax (by decide) (by decide)
    rfl (by decide) (by decide)

/-- C3: for an existing row not blocked by the attempt cap, a `last_sent_at`
inside the 24-hour cooldown yields `ConfirmationRateLimited` alone, with no
send and no database write; and the code's rate-limit test is the pure
comparison `lastSentAt + cooldown > now`. -/
theorem c3_rate_limited (c : SignupStarter) (env : Env) (db : DB)
    (mail : MailState) (row : SignupRow)
    (hv : c.valid = true) (hre : emailRegexpMatch c.email = true)
    (hq : env.queryFails = false)
    (hfind : db.findByEmail c.email = some row)
    (hcap : ¬(row.completedAt = none ∧ maxNumSignupAttempts ≤ row.numAttempts))
    (hrl : rateLimitHit row.lastSentAt env.now = true) :
    c.run env db mail = (.ok resultRateLimited, db, mail) ∧
    (∀ lastSentAt now : Int,
      rateLimitHit lastSentAt now = true ↔
        now < lastSentAt + noResendHours * timeHour) := by
  refine ⟨?_, ?_⟩
  · simp [SignupStarter.run, hv, hre, hq, hfind, hcap, hrl]
  · intro l n
    simp only [rateLimitHit, noResendHours, timeHour, decide_eq_true_eq]
    omega

/-- C3 witness: one hour after the last send, the outcome is
`ConfirmationRateLimited` and nothing is written or sent. -/
theorem c3_witness :
    starterFoo.run envOk dbRecent mail0 =
      (.ok resultRateLimited, dbRecent, mail0) ∧
    (∀ lastSentAt now : Int,
      rateLimitHit lastSentAt now = true ↔
        now < lastSentAt + noResendHours * timeHour) :=
  c3_rate_limited starterFoo envOk dbRecent mail0 rowRecent (by decide)
    (by decide) rfl (by decide) (by decide) (by decide)

/-- C4: for an existing row outside the cooldown window and not blocked by
the attempt cap, `SignupStarter.Run` re-sets `last_sent_at` to now,
increments `num_attempts` by one exactly when `completed_at` is null,
resends the confirmation with the row's stored token (independent of the
fresh token the generator would produce), and reports `ConfirmationResent`
alone. -/
theorem c4_confirmation_resent (c : SignupStarter) (env : Env) (db : DB)
    (mail : MailState) (row : SignupRow)
    (hv : c.valid = true) (hre : emailRegexpMatch c.email = true)
    (hq : env.queryFails = false) (he : env.execFails = false)
    (hrf : env.renderFails = false) (hs : env.sendFails = false)
    (hfind : db.findByEmail c.email = some row)
    (hcap : ¬(row.completedAt = none ∧ maxNumSignupAttempts ≤ row.numAttempts))
    (hrl : rateLimitHit row.lastSentAt env.now = false) :
    ∃ db1 mail1,
      c.run env db mail = (.ok resultResent, db1, mail1) ∧
      db1 = db.updateSent row.id env.now
        (if row.completedAt = none then row.numAttempts + 1
         else row.numAttempts) ∧
      db1.findByEmail c.email = some { row with
        lastSentAt := env.now,
        numAttempts := (if row.completedAt = none then row.numAttempts + 1
          else row.numAttempts) } ∧
      mail1.messagesSent = mail.messagesSent ++
        [{ recipient := c.email, token := row.token,
           listAddress := c.listAddress, replyTo := c.replyToAddress }] ∧
      mail1.membersAdded = mail.membersAdded := by
  have hrun : c.run env db mail = (.ok resultResent,
      db.updateSent row.id env.now
        (if row.completedAt = none then row.numAttempts + 1
         else row.numAttempts),
      { mail with messagesSent := mail.messagesSent ++
          [{ recipient := c.email, token := row.token,
             listAddress := c.listAddress, replyTo := c.replyToAddress }] }) := by
    simp [SignupStarter.run, SignupStarter.sendConfirmationMessage, hv, hre,
      hq, he, hrf, hs, hfind, hcap, hrl]
  refine ⟨_, _, hrun, rfl, ?_, rfl, rfl⟩
  rw [findByEmail_updateSent, hfind]
  simp

/-- C4 witness: a resend outside the cooldown window on the fixture row. -/
theorem c4_witness :
    ∃ db1 mail1,
      starterFoo.run envOk dbFix mail0 = (.ok resultResent, db1, mail1) ∧
      db1 = dbFix.updateSent rowFix.id envOk.now
        (if rowFix.completedAt = none then rowFix.numAttempts + 1
         else rowFix.numAttempts) ∧
      db1.findByEmail starterFoo.email =
        some { rowFix with
          lastSentAt := envOk.now,
          numAttempts := (if rowFix.completedAt = none then
              rowFix.numAttempts + 1
            else rowFix.numAttempts) } ∧
      mail1.messagesSent = mail0.messagesSent ++
        [{ recipient := starterFoo.email, token := rowFix.token,
           listAddress := starterFoo.listAddress,
           replyTo := starterFoo.replyToAddress }] ∧
      mail1.membersAdded = mail0.membersAdded :=
  c4_confirmation_resent starterFoo envOk dbFix mail0 rowFix (by decide)
    (by decide) rfl rfl rfl rfl (by decide) (by decide) (by decide)

/-- A starter command whose email is the empty string; the other required
fields are populated. -/
def starterEmptyEmail : SignupStarter :=
  ⟨"", "list@example.com", "reply@example.com"⟩

/-- A starter command with a syntactically invalid, nonempty email. -/
def starterBadEmail : SignupStarter :=
  ⟨"blah-not-an-email", "list@example.com", "reply@example.com"⟩

/-- An environment in which every collaborator call would fail. -/
def envAllFail : Env :=
  ⟨360000000000000, "fresh-tok", true, true, true, true, true⟩

/-- C5 counterexample: the empty string fails the syntactic regex check, yet
`SignupStarter.Run` returns the struct-validation error — not
`ErrInvalidEmail` — because `validate.Struct` rejects the zero-valued
`Email` field before the regex check runs. -/
theorem c5_counterexample :
    emailRegexpMatch starterEmptyEmail.email = false ∧
    (starterEmptyEmail.run envOk dbFix mail0).1 =
      .error .validationFailed ∧
    Err.validationFailed ≠ Err.invalidEmail :=
  ⟨by decide, rfl, by decide⟩

/-- C5 (amended): for every email string that fails the regex check and
passes struct validation (in particular, is nonempty), `SignupStarter.Run`
returns `ErrInvalidEmail` with no result, no message, and an untouched
database — for every environment, including one whose query would fail, so
the database is not even read. -/
theorem c5_invalid_email (c : SignupStarter) (env : Env) (db : DB)
    (mail : MailState)
    (hv : c.valid = true) (hre : emailRegexpMatch c.email = false) :
    c.run env db mail = (.error .invalidEmail, db, mail) := by
  simp [SignupStarter.run, hv, hre]

/-- C5 witness: a nonempty invalid email, under an environment in which every
collaborator would fail. -/
theorem c5_witness :
    starterBadEmail.run envAllFail dbFix mail0 =
      (.error .invalidEmail, dbFix, mail0) :=
  c5_invalid_email starterBadEmail envAllFail dbFix mail0 (by decide)
    (by decide)

/-- C6: for a syntactically valid email with no existing row,
`SignupStarter.Run` inserts exactly one row carrying the freshly generated
token, `num_attempts` 1 and `created_at`/`last_sent_at` now, sends exactly
one confirmation message to that email, and reports `NewSignup` alone; a
token fresh for the table keeps tokens unique. -/
theorem c6_new_signup (c : SignupStarter) (env : Env) (db : DB)
    (mail : MailState)
    (hv : c.valid = true) (hre : emailRegexpMatch c.email = true)
    (hq : env.queryFails = false) (he : env.execFails = false)
    (hrf : env.renderFails = false) (hs : env.sendFails = false)
    (hfind : db.findByEmail c.email = none) :
    ∃ row1 mail1,
      c.run env db mail = (.ok resultNewSignup,
        db.insertSignup c.email env.freshToken env.now, mail1) ∧
      (db.insertSignup c.email env.freshToken env.now).rows =
        db.rows ++ [row1] ∧
      row1.email = c.email ∧ row1.token = env.freshToken ∧
      row1.numAttempts = 1 ∧ row1.createdAt = env.now ∧
      row1.lastSentAt = env.now ∧ row1.completedAt = none ∧
      mail1.messagesSent = mail.messagesSent ++
        [{ recipient := c.email, token := env.freshToken,
           listAddress := c.listAddress, replyTo := c.replyToAddress }] ∧
      mail1.membersAdded = mail.membersAdded ∧
      ((∀ r ∈ db.rows, r.token ≠ env.freshToken) →
        ∀ r ∈ db.rows, r.token ≠ row1.token) := by
  refine ⟨⟨db.nextId, env.now, none, c.email, env.now, 1, env.freshToken⟩,
    { mail with messagesSent := mail.messagesSent ++
        [⟨c.email, env.freshToken, c.listAddress, c.replyToAddress⟩] },
    ?_, rfl, rfl, rfl, rfl, rfl, rfl, rfl, rfl, rfl, ?_⟩
  · simp [SignupStarter.run, SignupStarter.sendConfirmationMessage, hv, hre,
      hq, he, hrf, hs, hfind]
  · intro h r hr
    exact h r hr

/-- C6 witness: a brand-new email on the empty table. -/
theorem c6_witness :
    ∃ row1 mail1,
      starterFix.run envOk dbEmpty mail0 = (.ok resultNewSignup,
        dbEmpty.insertSignup starterFix.email envOk.freshToken envOk.now,
        mail1) ∧
      (dbEmpty.insertSignup starterFix.email envOk.freshToken
        envOk.now).rows = dbEmpty.rows ++ [row1] ∧
      row1.email = starterFix.email ∧ row1.token = envOk.freshToken ∧
      row1.numAttempts = 1 ∧ row1.createdAt = envOk.now ∧
      row1.lastSentAt = envOk.now ∧ row1.completedAt = none ∧
      mail1.messagesSent = mail0.messagesSent ++
        [{ recipient := starterFix.email, token := envOk.freshToken,
           listAddress := starterFix.listAddress,
           replyTo := starterFix.replyToAddress }] ∧
      mail1.membersAdded = mail0.membersAdded ∧
      ((∀ r ∈ dbEmpty.rows, r.token ≠ envOk.freshToken) →
        ∀ r ∈ dbEmpty.rows, r.token ≠ row1.token) :=
  c6_new_signup starterFix envOk dbEmpty mail0 (by decide) (by decide)
    rfl rfl rfl rfl rfl

/-- A finisher command whose token is the empty string; the list address is
populated. -/
def finisherEmptyToken : SignupFinisher := ⟨"list@example.com", ""⟩

/-- A finisher command for a token absent from the fixture table. -/
def finisherUnknown : SignupFinisher := ⟨"list@example.com", "tok-unknown"⟩

/-- C7 counterexample: the empty token matches no signup row, yet
`SignupFinisher.Run` returns the struct-validation error with a nil result
rather than the `TokenNotFound` outcome, because `validate.Struct` rejects
the zero-valued `Token` field before the query runs. -/
theorem c7_counterexample :
    dbFix.findByToken finisherEmptyToken.token = none ∧
    (finisherEmptyToken.run envOk dbFix mail0).1 =
      .error .validationFailed :=
  ⟨by decide, rfl⟩

/-- C7 (amended): for every token that passes struct validation (in
particular, is nonempty) and matches no signup row, `SignupFinisher.Run`
returns `TokenNotFound` with a nil error, writes nothing and never calls
`AddMember`; the generic database-error path instead yields a nil result
with a wrapped non-nil error, a distinct outcome. -/
theorem c7_token_not_found (c : SignupFinisher) (env : Env) (db : DB)
    (mail : MailState)
    (hv : c.valid = true) (hq : env.queryFails = false)
    (hfind : db.findByToken c.token = none) :
    c.run env db mail = (.ok ⟨"", false, true⟩, db, mail) ∧
    (∀ env2 : Env, env2.queryFails = true →
      c.run env2 db mail = (.error .dbQuery, db, mail)) ∧
    (∀ r : SignupFinisherResult,
      (Except.error Err.dbQuery : Except Err SignupFinisherResult) ≠
        Except.ok r) := by
  refine ⟨?_, ?_, ?_⟩
  · simp [SignupFinisher.run, hv, hq, hfind]
  · intro env2 h2
    simp [SignupFinisher.run, hv, h2]
  · intro r
    simp

/-- C7 witness: an unknown, nonempty token against the fixture table. -/
theorem c7_witness :
    finisherUnknown.run envOk dbFix mail0 =
      (.ok ⟨"", false, true⟩, dbFix, mail0) ∧
    (∀ env2 : Env, env2.queryFails = true →
      finisherUnknown.run env2 dbFix mail0 =
        (.error .dbQuery, dbFix, mail0)) ∧
    (∀ r : SignupFinisherResult,
      (Except.error Err.dbQuery : Except Err SignupFinisherResult) ≠
        Except.ok r) :=
  c7_token_not_found finisherUnknown envOk dbFix mail0 (by decide) rfl
    (by decide)

/-- `WithTransaction` on a body that returns an error: the prior state is
restored and the fate is a rollback. -/
theorem withTransaction_error {σ E α : Type} (s : σ)
    (f : σ → Except E α × σ) (e : E) (h : (f s).1 = .error e) :
    (withTransaction s f).2.1 = s ∧
    (withTransaction s f).2.2 = TxFate.rolledBack := by
  unfold withTransaction
  cases hf : f s with
  | mk r s1 =>
    rw [hf] at h
    simp only at h
    subst h
    exact ⟨rfl, rfl⟩

/-- `WithTransaction` on a body that succeeds: the body's state is kept and
the fate is a commit. -/
theorem withTransaction_ok {σ E α : Type} (s : σ)
    (f : σ → Except E α × σ) (a : α) (s1 : σ) (h : f s = (.ok a, s1)) :
    (withTransaction s f).2.1 = s1 ∧
    (withTransaction s f).2.2 = TxFate.committed := by
  unfold withTransaction
  rw [h]
  exact ⟨rfl, rfl⟩

/-- C8: `WithTransaction` commits exactly when the body returns a nil error
and rolls back otherwise; consequently a mediator run that fails partway
retains no partial database state. -/
theorem c8_with_transaction (σ E α : Type) (s : σ)
    (f : σ → Except E α × σ) :
    ((withTransaction s f).2.2 = TxFate.committed ↔
      ∃ a s1, f s = (.ok a, s1)) ∧
    (∀ e s1, f s = (.error e, s1) →
      (withTransaction s f).2.1 = s ∧
      (withTransaction s f).2.2 = TxFate.rolledBack) ∧
    (∀ a s1, f s = (.ok a, s1) → (withTransaction s f).2.1 = s1) ∧
    (∀ (c : SignupStarter) (env : Env) (mail : MailState) (db : DB)
      (e : Err), (c.runInTx env mail db).1 = .error e →
      (c.transact env mail db).2.1 = db ∧
      (c.transact env mail db).2.2 = TxFate.rolledBack) ∧
    (∀ (c : SignupFinisher) (env : Env) (mail : MailState) (db : DB)
      (e : Err), (c.runInTx env mail db).1 = .error e →
      (c.transact env mail db).2.1 = db ∧
      (c.transact env mail db).2.2 = TxFate.rolledBack) := by
  refine ⟨?_, ?_, ?_, ?_, ?_⟩
  · cases hf : f s with
    | mk r s1 =>
      cases r with
      | ok a =>
        simp [withTransaction, hf]
      | error e =>
        simp [withTransaction, hf]
  · intro e s1 h
    exact withTransaction_error s f e (by rw [h])
  · intro a s1 h
    exact (withTransaction_ok s f a s1 h).1
  · intro c env mail db e h
    exact withTransaction_error db (c.runInTx env mail) e h
  · intro c env mail db e h
    exact withTransaction_error db (c.runInTx env mail) e h

/-- An environment in which only the mail send fails. -/
def envSendFail : Env :=
  ⟨360000000000000, "fresh-tok", false, false, false, true, false⟩

/-- C8 witness: a new-signup run whose confirmation send fails has inserted a
row in-transaction, and the transaction wrapper discards it. -/
theorem c8_witness :
    (starterFix.transact envSendFail mail0 dbEmpty).2.1 = dbEmpty ∧
    (starterFix.transact envSendFail mail0 dbEmpty).2.2 =
      TxFate.rolledBack :=
  (c8_with_transaction DB Err (SignupStarterResult × MailState) dbEmpty
      (starterFix.runInTx envSendFail mail0)).2.2.2.1
    starterFix envSendFail mail0 dbEmpty Err.sendMessage rfl

/-- C9: the finisher's update touches `completed_at` only — on every row of
the table, `email`, `token`, `created_at`, `num_attempts` and `last_sent_at`
are unchanged; in particular `last_sent_at` is not cleared on completion,
and the matched row's `completed_at` is set to now. -/
theorem c9_finisher_frame (c : SignupFinisher) (env : Env) (db : DB)
    (mail : MailState) (row : SignupRow)
    (hv : c.valid = true) (hq : env.queryFails = false)
    (he : env.execFails = false)
    (hfind : db.findByToken c.token = some row) :
    (c.run env db mail).2.1.rows.length = db.rows.length ∧
    ∀ i (h1 : i < db.rows.length)
      (h2 : i < (c.run env db mail).2.1.rows.length),
      ((c.run env db mail).2.1.rows[i]).email = (db.rows[i]).email ∧
      ((c.run env db mail).2.1.rows[i]).token = (db.rows[i]).token ∧
      ((c.run env db mail).2.1.rows[i]).createdAt =
        (db.rows[i]).createdAt ∧
      ((c.run env db mail).2.1.rows[i]).numAttempts =
        (db.rows[i]).numAttempts ∧
      ((c.run env db mail).2.1.rows[i]).lastSentAt =
        (db.rows[i]).lastSentAt ∧
      ((db.rows[i]).id ≠ row.id →
        ((c.run env db mail).2.1.rows[i]).completedAt =
          (db.rows[i]).completedAt) ∧
      ((db.rows[i]).id = row.id →
        ((c.run env db mail).2.1.rows[i]).completedAt = some env.now) := by
  have hdb : (c.run env db mail).2.1 = db.updateCompleted row.id env.now := by
    cases ha : env.addMemberFails <;>
      simp [SignupFinisher.run, hv, hq, he, hfind, ha]
  rw [hdb]
  unfold DB.updateCompleted
  refine ⟨by simp, ?_⟩
  intro i h1 h2
  simp only [List.getElem_map]
  by_cases hid : (db.rows[i]).id = row.id
  · simp [hid]
  · simp [hid]

/-- C9 witness at the fixture row and table. -/
theorem c9_witness :
    (finisherFix.run envOk dbFix mail0).2.1.rows.length =
      dbFix.rows.length ∧
    ∀ i (h1 : i < dbFix.rows.length)
      (h2 : i < (finisherFix.run envOk dbFix mail0).2.1.rows.length),
      ((finisherFix.run envOk dbFix mail0).2.1.rows[i]).email =
        (dbFix.rows[i]).email ∧
      ((finisherFix.run envOk dbFix mail0).2.1.rows[i]).token =
        (dbFix.rows[i]).token ∧
      ((finisherFix.run envOk dbFix mail0).2.1.rows[i]).createdAt =
        (dbFix.rows[i]).createdAt ∧
      ((finisherFix.run envOk dbFix mail0).2.1.rows[i]).numAttempts =
        (dbFix.rows[i]).numAttempts ∧
      ((finisherFix.run envOk dbFix mail0).2.1.rows[i]).lastSentAt =
        (dbFix.rows[i]).lastSentAt ∧
      ((dbFix.rows[i]).id ≠ rowFix.id →
        ((finisherFix.run envOk dbFix mail0).2.1.rows[i]).completedAt =
          (dbFix.rows[i]).completedAt) ∧
      ((dbFix.rows[i]).id = rowFix.id →
        ((finisherFix.run envOk dbFix mail0).2.1.rows[i]).completedAt =
          some envOk.now) :=
  c9_finisher_frame finisherFix envOk dbFix mail0 rowFix (by decide) rfl rfl
    (by decide)

/-- Every database state `SignupStarter.Run` can leave inside the
transaction: untouched, one inserted row, or the matched row's resend
update. -/
theorem starter_run_db (c : SignupStarter) (env : Env) (db : DB)
    (mail : MailState) :
    (c.run env db mail).2.1 = db ∨
    (c.run env db mail).2.1 =
      db.insertSignup c.email env.freshToken env.now ∨
    ∃ row, db.findByEmail c.email = some row ∧
      ¬(row.completedAt = none ∧
        maxNumSignupAttempts ≤ row.numAttempts) ∧
      (c.run env db mail).2.1 = db.updateSent row.id env.now
        (if row.completedAt = none then row.numAttempts + 1
         else row.numAttempts) := by
  unfold SignupStarter.run
  split
  · exact Or.inl rfl
  split
  · exact Or.inl rfl
  split
  · exact Or.inl rfl
  split
  · split
    · exact Or.inl rfl
    split
    · exact Or.inr (Or.inl rfl)
    · exact Or.inr (Or.inl rfl)
  · rename_i row hfind
    split
    · exact Or.inl rfl
    rename_i hcap
    split
    · exact Or.inl rfl
    split
    · exact Or.inl rfl
    split
    · exact Or.inr (Or.inr ⟨row, hfind, hcap, rfl⟩)
    · exact Or.inr (Or.inr ⟨row, hfind, hcap, rfl⟩)

/-- Every database state `SignupFinisher.Run` can leave inside the
transaction: untouched, or the matched row's completion update. -/
theorem finisher_run_db (c : SignupFinisher) (env : Env) (db : DB)
    (mail : MailState) :
    (c.run env db mail).2.1 = db ∨
    ∃ row, db.findByToken c.token = some row ∧
      (c.run env db mail).2.1 = db.updateCompleted row.id env.now := by
  unfold SignupFinisher.run
  split
  · exact Or.inl rfl
  split
  · exact Or.inl rfl
  split
  · exact Or.inl rfl
  · rename_i row hfind
    split
    · exact Or.inl rfl
    split
    · exact Or.inr ⟨row, hfind, rfl⟩
    · exact Or.inr ⟨row, hfind, rfl⟩

/-- The attempts invariant: every row's counter lies between 1 and the
attempt ceiling. -/
def attemptsInv (db : DB) : Prop :=
  ∀ r ∈ db.rows, 1 ≤ r.numAttempts ∧ r.numAttempts ≤ maxNumSignupAttempts

/-- Inserting a fresh signup row preserves the attempts invariant: the new
row starts at one attempt. -/
theorem attemptsInv_insertSignup (db : DB) (e t : String) (now : Int)
    (h : attemptsInv db) : attemptsInv (db.insertSignup e t now) := by
  intro r hr
  unfold DB.insertSignup at hr
  simp only [List.mem_append, List.mem_singleton] at hr
  rcases hr with hr | hr
  · exact h r hr
  · subst hr
    constructor <;> norm_num [maxNumSignupAttempts]

/-- The resend update preserves the attempts invariant whenever the written
counter is itself within bounds. -/
theorem attemptsInv_updateSent (db : DB) (i now n : Int)
    (h : attemptsInv db) (hn1 : 1 ≤ n) (hn3 : n ≤ maxNumSignupAttempts) :
    attemptsInv (db.updateSent i now n) := by
  intro r hr
  unfold DB.updateSent at hr
  simp only [List.mem_map] at hr
  obtain ⟨r0, hr0, rfl⟩ := hr
  by_cases hid : r0.id = i
  · simp only [hid, beq_self_eq_true, if_true]
    exact ⟨hn1, hn3⟩
  · rw [if_neg (by simp [hid])]
    exact h r0 hr0

/-- The completion update never touches the attempts counter. -/
theorem attemptsInv_updateCompleted (db : DB) (i now : Int)
    (h : attemptsInv db) : attemptsInv (db.updateCompleted i now) := by
  intro r hr
  unfold DB.updateCompleted at hr
  simp only [List.mem_map] at hr
  obtain ⟨r0, hr0, rfl⟩ := hr
  by_cases hid : r0.id = i
  · simp only [hid, beq_self_eq_true, if_true]
    exact h r0 hr0
  · rw [if_neg (by simp [hid])]
    exact h r0 hr0

/-- Any in-transaction state of `SignupStarter.Run` keeps the attempts
invariant. -/
theorem attemptsInv_starter_run (c : SignupStarter) (env : Env) (db : DB)
    (mail : MailState) (h : attemptsInv db) :
    attemptsInv (c.run env db mail).2.1 := by
  rcases starter_run_db c env db mail with hdb | hdb | ⟨row, hfind, hcap, hdb⟩
  · rwa [hdb]
  · rw [hdb]
    exact attemptsInv_insertSignup db _ _ _ h
  · rw [hdb]
    have hrow : row ∈ db.rows := List.mem_of_find?_eq_some hfind
    obtain ⟨ha1, ha3⟩ := h row hrow
    refine attemptsInv_updateSent db _ _ _ h ?_ ?_
    · by_cases hc : row.completedAt = none <;> simp [hc] <;> omega
    · by_cases hc : row.completedAt = none
      · simp only [hc, if_true]
        simp only [hc, true_and] at hcap
        unfold maxNumSignupAttempts at hcap ⊢
        omega
      · simp only [hc, if_neg]
        exact ha3

/-- Any in-transaction state of `SignupFinisher.Run` keeps the attempts
invariant. -/
theorem attemptsInv_finisher_run (c : SignupFinisher) (env : Env) (db : DB)
    (mail : MailState) (h : attemptsInv db) :
    attemptsInv (c.run env db mail).2.1 := by
  rcases finisher_run_db c env db mail with hdb | ⟨row, hfind, hdb⟩
  · rwa [hdb]
  · rw [hdb]
    exact attemptsInv_updateCompleted db _ _ h

/-- One committed invocation keeps the attempts invariant. -/
theorem attemptsInv_applyOp (db : DB) (op : Op) (h : attemptsInv db) :
    attemptsInv (applyOp db op) := by
  cases op with
  | start c env =>
    show attemptsInv (withTransaction db (c.runInTx env ⟨[], []⟩)).2.1
    unfold withTransaction SignupStarter.runInTx
    cases hr : c.run env db ⟨[], []⟩ with
    | mk res rest =>
      have hrun := attemptsInv_starter_run c env db ⟨[], []⟩ h
      rw [hr] at hrun
      cases rest with
      | mk db1 mail1 =>
        cases res with
        | ok r => exact hrun
        | error e => exact h
  | finish c env =>
    show attemptsInv (withTransaction db (c.runInTx env ⟨[], []⟩)).2.1
    unfold withTransaction SignupFinisher.runInTx
    cases hr : c.run env db ⟨[], []⟩ with
    | mk res rest =>
      have hrun := attemptsInv_finisher_run c env db ⟨[], []⟩ h
      rw [hr] at hrun
      cases rest with
      | mk db1 mail1 =>
        cases res with
        | ok r => exact hrun
        | error e => exact h

/-- C10: starting from an empty `signup` table, after any sequence of
starter and finisher invocations every row's `num_attempts` lies between 1
and the ceiling of 3 — rows are created at 1, the counter grows only below
the cap while uncompleted, and nothing else writes it. -/
theorem c10_attempts_bounded (ops : List Op) (seq : Int) :
    attemptsInv (applyOps ⟨[], seq⟩ ops) := by
  have hgen : ∀ (ops : List Op) (db : DB), attemptsInv db →
      attemptsInv (applyOps db ops) := by
    intro ops
    induction ops with
    | nil => intro db h; exact h
    | cons op ops ih =>
      intro db h
      exact ih (applyOp db op) (attemptsInv_applyOp db op h)
  exact hgen ops ⟨[], seq⟩ (fun r hr => absurd hr (List.not_mem_nil r))

/-- C10 witness: a concrete three-request sequence on the empty table. -/
theorem c10_witness :
    attemptsInv (applyOps ⟨[], 1⟩
      [Op.start starterFix envOk, Op.start starterFoo envOk,
        Op.finish finisherFix envOk]) :=
  c10_attempts_bounded
    [Op.start starterFix envOk, Op.start starterFoo envOk,
      Op.finish finisherFix envOk] 1

end Passages
